import Mathlib

/-!
Shallow embedding of the flight aggregation and classification engine of the
Air-Traffic-Analyzer repository (src/app.py), together with theorems checking
claims of the specification about it.

Modelling conventions:
* Python strings are `List Char`; `str.strip`, `str.upper`, `str.lower` and the
  substring operator `in` are modelled character-wise below.
* Feed numbers (latitudes, longitudes, altitudes, velocities, headings, wind
  speeds) that only ever flow through comparisons are modelled as `ℚ`; the
  great-circle computation (`haversine`), which uses trigonometry, is modelled
  over `ℝ`.
* Timestamps are Unix epoch seconds and are modelled as `ℕ` (the code obtains
  them from `datetime.utcnow().timestamp()` or the feed `time` field, both
  nonnegative); on `ℕ` the SQL integer division `timestamp/3600` agrees with
  floor division.
* A Python value that may be `None` is an `Option`; `x or 0` on a numeric
  field is `Option.getD x 0` (for numbers, `None` and `0` both map to `0`,
  exactly as the Python `or` operator does), and `(s or "")` is `Option.getD s []`.
-/

/-- The ASCII whitespace set of Python as used by `str.strip()`. -/
def isPySpace (c : Char) : Bool :=
  c == ' ' || c == '\t' || c == '\n' || c == '\r' || c == '\x0b' || c == '\x0c'

/-- Python `str.strip()`: drop leading and trailing whitespace. -/
def stripChars (s : List Char) : List Char :=
  ((s.dropWhile isPySpace).reverse.dropWhile isPySpace).reverse

/-- Python `str.upper()` on ASCII text. -/
def upperChars (s : List Char) : List Char := s.map Char.toUpper

/-- Python `str.lower()` on ASCII text. -/
def lowerChars (s : List Char) : List Char := s.map Char.toLower

/-- Tests whether the first list is an initial segment of the second. -/
def leadsWith : List Char → List Char → Bool
  | [], _ => true
  | _ :: _, [] => false
  | a :: as, b :: bs => a == b && leadsWith as bs

/-- The Python substring operator `needle in haystack`: `needle` occurs
contiguously inside `haystack`. -/
def occursIn (needle : List Char) : List Char → Bool
  | [] => needle.isEmpty
  | b :: bs => leadsWith needle (b :: bs) || occursIn needle bs

/-- The configured region, `REGION_BOUNDS` in src/app.py. -/
structure RegionBounds where
  min_lat : ℚ
  max_lat : ℚ
  min_lon : ℚ
  max_lon : ℚ
deriving DecidableEq

/-- The fixed process-wide region configured in src/app.py (lines 18-23). -/
def REGION_BOUNDS : RegionBounds := ⟨5, 35, 68, 97⟩

/-- One raw OpenSky state vector as consumed by `api_flights_live`
(src/app.py lines 233-240): index 0 = icao24, 1 = callsign,
2 = origin_country, 5 = longitude, 6 = latitude, 7 = baro_altitude,
9 = velocity, 10 = heading.  Fields that the code guards with `or`/null
checks are `Option`s. -/
structure RawStateQ where
  icao24 : String
  callsign : Option (List Char)
  origin_country : String
  lon : Option ℚ
  lat : Option ℚ
  altitude : Option ℚ
  velocity : Option ℚ
  heading : Option ℚ
deriving DecidableEq

/-- The flight dictionary appended to `flights` in `api_flights_live`
(src/app.py lines 255-265). -/
structure FlightRecord where
  icao24 : String
  callsign : List Char
  origin_country : String
  lat : ℚ
  lon : ℚ
  altitude : ℚ
  velocity : ℚ
  heading : ℚ
  timestamp : ℕ
deriving DecidableEq

/-- One row of the `flight_snapshots` table (src/app.py lines 68-79),
in the column order of the INSERT statement at lines 271-274. -/
structure SnapshotEntry where
  icao24 : String
  callsign : List Char
  lat : ℚ
  lon : ℚ
  altitude : ℚ
  velocity : ℚ
  timestamp : ℕ
deriving DecidableEq

/-- The INSERT at src/app.py lines 271-274: the snapshot row stored for a
flight dictionary, column for column. -/
def toSnapshot (f : FlightRecord) : SnapshotEntry :=
  ⟨f.icao24, f.callsign, f.lat, f.lon, f.altitude, f.velocity, f.timestamp⟩

/-- The body of the per-state loop of `api_flights_live` (src/app.py lines
229-265): extract the fields, drop the state when latitude or longitude is
null, apply the bounds, altitude and callsign filters in order, and build the
flight dictionary.  `search` is the already stripped-and-uppercased query
parameter (line 220). -/
def processState (bounds : RegionBounds) (minAlt maxAlt : ℚ) (search : List Char)
    (ts : ℕ) (s : RawStateQ) : Option FlightRecord :=
  let callsign := stripChars (s.callsign.getD [])
  let altitude := s.altitude.getD 0
  let velocity := s.velocity.getD 0
  let heading := s.heading.getD 0
  match s.lat, s.lon with
  | some lat, some lon =>
    if ¬ (bounds.min_lat ≤ lat ∧ lat ≤ bounds.max_lat ∧
          bounds.min_lon ≤ lon ∧ lon ≤ bounds.max_lon) then none
    else if ¬ (minAlt ≤ altitude ∧ altitude ≤ maxAlt) then none
    else if search ≠ [] ∧ occursIn search callsign = false then none
    else some ⟨s.icao24, callsign, s.origin_country, lat, lon, altitude,
               velocity, heading, ts⟩
  | _, _ => none

/-- The field extraction half of the loop body in isolation: turn a raw state
into a `FlightRecord`, dropping it only when latitude or longitude is null
(src/app.py lines 233-243). -/
def parseRecord (ts : ℕ) (s : RawStateQ) : Option FlightRecord :=
  match s.lat, s.lon with
  | some lat, some lon =>
      some ⟨s.icao24, stripChars (s.callsign.getD []), s.origin_country, lat,
            lon, s.altitude.getD 0, s.velocity.getD 0, s.heading.getD 0, ts⟩
  | _, _ => none

/-- The filtering half of the loop body in isolation, as a predicate on an
already-built record: bounds containment (lines 245-247), altitude range
(lines 249-250) and callsign substring (lines 252-253); the last conjunct
mirrors the `continue` condition `callsign_search and callsign_search not in
callsign`. -/
def passes (bounds : RegionBounds) (minAlt maxAlt : ℚ) (search : List Char)
    (f : FlightRecord) : Bool :=
  decide (bounds.min_lat ≤ f.lat ∧ f.lat ≤ bounds.max_lat ∧
          bounds.min_lon ≤ f.lon ∧ f.lon ≤ bounds.max_lon) &&
  decide (minAlt ≤ f.altitude ∧ f.altitude ≤ maxAlt) &&
  !(decide (search ≠ []) && !(occursIn search f.callsign))

/-- The RegionFilter of the specification: keep the records satisfying
`passes`, preserving order. -/
def regionFilter (bounds : RegionBounds) (minAlt maxAlt : ℚ) (search : List Char)
    (records : List FlightRecord) : List FlightRecord :=
  records.filter (passes bounds minAlt maxAlt search)

/-- The whole loop of `api_flights_live` (src/app.py lines 218-265):
`callsignRaw` is the raw `callsign` query parameter, stripped and uppercased
at line 220 before the loop. -/
def liveFlights (bounds : RegionBounds) (minAlt maxAlt : ℚ)
    (callsignRaw : List Char) (ts : ℕ) (states : List RawStateQ) :
    List FlightRecord :=
  states.filterMap (processState bounds minAlt maxAlt
    (upperChars (stripChars callsignRaw)) ts)

/-- Congestion level of `api_stats_summary` (src/app.py lines 296-301). -/
inductive Congestion
  | LOW
  | MEDIUM
  | HIGH
deriving DecidableEq

/-- The `COUNT(*) ... WHERE timestamp >= ?` query of `api_stats_summary`
(src/app.py lines 289-293). -/
def countSince (entries : List SnapshotEntry) (thr : ℕ) : ℕ :=
  (entries.filter (fun e => thr ≤ e.timestamp)).length

/-- The threshold chain of src/app.py lines 296-301 applied to the recent
snapshot count. -/
def congestionLevel (recent : ℕ) : Congestion :=
  if recent < 50 then .LOW
  else if recent < 150 then .MEDIUM
  else .HIGH

/-- The `GROUP BY timestamp/3600 ... ORDER BY hour_bucket DESC LIMIT ?` query
of `api_stats_summary` (src/app.py lines 304-315): one `(hour, count)` pair
per distinct hour bucket among the stored entries, in descending bucket
order, truncated to `limit` pairs.  The SQLite integer division on the
nonnegative `timestamp` column is `ℕ` division. -/
def hourlyBuckets (entries : List SnapshotEntry) (limit : ℕ) : List (ℕ × ℕ) :=
  let hours := List.insertionSort (fun a b => b ≤ a)
    ((entries.map (fun e => e.timestamp / 3600)).dedup)
  (hours.map (fun h => (h, entries.countP (fun e => e.timestamp / 3600 == h)))).take limit

/-- The payload of `api_stats_summary` (src/app.py lines 317-321). -/
structure CongestionSnapshot where
  recent : ℕ
  level : Congestion
  hourly : List (ℕ × ℕ)
deriving DecidableEq

/-- The whole of `api_stats_summary` (src/app.py lines 281-321): count the
last 10 minutes of snapshots, map the count to a congestion level, and
bucket all snapshots by hour with a limit of 24. -/
def summarize (entries : List SnapshotEntry) (now : ℕ) : CongestionSnapshot :=
  ⟨countSince entries (now - 600),
   congestionLevel (countSince entries (now - 600)),
   hourlyBuckets entries 24⟩

/-- Weather risk level of `api_airport_weather` (src/app.py lines 346-354). -/
inductive Risk
  | LOW
  | MODERATE
  | HIGH
deriving DecidableEq

/-- The risk mapping of `api_airport_weather` (src/app.py lines 346-354):
`main` is lowercased, then the rules are checked in order — storm/thunder text
or wind above 15 gives HIGH, else rain/fog text gives MODERATE, else LOW. -/
def weatherRisk (mainText : List Char) (wind : ℚ) : Risk :=
  let m := lowerChars mainText
  if occursIn ("storm".toList) m || occursIn ("thunder".toList) m
      || decide (15 < wind) then .HIGH
  else if occursIn ("rain".toList) m || occursIn ("fog".toList) m then .MODERATE
  else .LOW

/-- Python `math.radians`: degrees to radians. -/
noncomputable def radians (x : ℝ) : ℝ := x * Real.pi / 180

/-- The `haversine` helper of `api_airport_traffic` (src/app.py lines
385-392), with Earth radius 6371 km; the floating-point arithmetic of the
source is modelled over `ℝ`. -/
noncomputable def haversine (lat1 lon1 lat2 lon2 : ℝ) : ℝ :=
  let dlat := radians (lat2 - lat1)
  let dlon := radians (lon2 - lon1)
  let a := Real.sin (dlat / 2) ^ 2 +
    Real.cos (radians lat1) * Real.cos (radians lat2) * Real.sin (dlon / 2) ^ 2
  6371 * (2 * Real.arcsin (Real.sqrt a))

/-- Python `round(y)` on the real model: round half to even. -/
noncomputable def pyRound (y : ℝ) : ℤ :=
  if Int.fract y = 1 / 2 then (if Even ⌊y⌋ then ⌊y⌋ else ⌊y⌋ + 1)
  else round y

/-- Python `round(x, 1)` as used for `distance_km` (src/app.py line 414). -/
noncomputable def round1 (x : ℝ) : ℝ := (pyRound (x * 10) : ℝ) / 10

/-- One raw OpenSky state vector as consumed by `api_airport_traffic`
(src/app.py lines 399-402): it reads only indices 1 (callsign),
5 (longitude), 6 (latitude) and 10 (heading). -/
structure TrafficState where
  callsign : Option (List Char)
  lon : Option ℝ
  lat : Option ℝ
  heading : Option ℝ

/-- The per-flight info dictionary of `api_airport_traffic` (src/app.py
lines 409-415). -/
structure TrafficInfo where
  callsign : List Char
  lat : ℝ
  lon : ℝ
  heading : ℝ
  distance_km : ℝ

/-- The three buckets returned by `api_airport_traffic` (src/app.py lines
394-396 and 424-430). -/
structure TrafficClassification where
  arrivals : List TrafficInfo
  departures : List TrafficInfo
  others : List TrafficInfo

/-- The classification loop of `api_airport_traffic` (src/app.py lines
398-422): drop states with null coordinates, drop states farther than 100 km
from the airport, then send a state to arrivals when its distance exceeds
30 km and its heading is neither 0 nor 360, to departures when its distance
is below 30 km, and to others in every remaining case.  Input order is
preserved in each bucket. -/
noncomputable def classifyTraffic (lat0 lon0 : ℝ) :
    List TrafficState → TrafficClassification
  | [] => ⟨[], [], []⟩
  | s :: rest =>
    let t := classifyTraffic lat0 lon0 rest
    match s.lat, s.lon with
    | some lat, some lon =>
      let heading := s.heading.getD 0
      let dist := haversine lat0 lon0 lat lon
      let info : TrafficInfo :=
        ⟨stripChars (s.callsign.getD []), lat, lon, heading, round1 dist⟩
      if dist ≤ 100 then
        if 30 < dist ∧ heading ≠ 0 ∧ heading ≠ 360 then
          ⟨info :: t.arrivals, t.departures, t.others⟩
        else if dist < 30 then
          ⟨t.arrivals, info :: t.departures, t.others⟩
        else
          ⟨t.arrivals, t.departures, info :: t.others⟩
      else t
    | _, _ => t

/-- One row of the `airports` table (src/app.py lines 55-65). -/
structure Airport where
  code : List Char
  name : List Char
  city : List Char
  country : List Char
  lat : ℝ
  lon : ℝ

/-- The `SELECT * FROM airports WHERE code = ?` lookup with the uppercased
path parameter (src/app.py lines 336-337 and 372-373). -/
def lookupAirport (airports : List Airport) (code : List Char) : Option Airport :=
  airports.find? (fun ap => ap.code == upperChars code)

/-- The relevant part of an OpenWeather observation (src/app.py lines
347-348 and 361-362): `weather[0].main`, `weather[0].description`,
`wind.speed` and `main.temp`. -/
structure WeatherObs where
  main : List Char
  description : List Char
  windSpeed : ℚ
  temp : ℚ

/-- Outcome of `api_airport_weather` (src/app.py lines 334-365): unknown
code gives the 404 branch, a missing OpenWeather API key gives the 500
branch, and otherwise the payload is built. -/
inductive WeatherReply
  | notFound
  | unconfigured
  | ok (code : List Char) (risk : Risk) (windSpeed : ℚ) (temp : ℚ)
deriving DecidableEq

/-- The control flow of `api_airport_weather` (src/app.py lines 334-365).
`provider` models `fetch_openweather` keyed by the airport coordinates; it is
`none` exactly when `OPENWEATHER_API_KEY` is unset (src/app.py lines
197-201), in which case the endpoint reports the unconfigured error. -/
def airportWeather (airports : List Airport) (code : List Char)
    (provider : Option (ℝ → ℝ → WeatherObs)) : WeatherReply :=
  match lookupAirport airports code with
  | none => .notFound
  | some ap =>
    match provider with
    | none => .unconfigured
    | some fetch =>
      let w := fetch ap.lat ap.lon
      .ok ap.code (weatherRisk w.main w.windSpeed) w.windSpeed w.temp

/-- Outcome of `api_airport_traffic` (src/app.py lines 369-430). -/
inductive TrafficReply
  | notFound
  | ok (t : TrafficClassification)

/-- The control flow of `api_airport_traffic` (src/app.py lines 369-430):
unknown code gives the 404 branch, otherwise the live states are classified
around the coordinates of the airport. -/
noncomputable def airportTraffic (airports : List Airport) (code : List Char)
    (states : List TrafficState) : TrafficReply :=
  match lookupAirport airports code with
  | none => .notFound
  | some ap => .ok (classifyTraffic ap.lat ap.lon states)

/-! Helper lemmas about the great-circle distance. -/

lemma radians_zero : radians 0 = 0 := by
  simp [radians]

lemma haversine_self (a b : ℝ) : haversine a b a b = 0 := by
  simp [haversine, sub_self, radians_zero, Real.sin_zero, Real.arcsin_zero,
    Real.sqrt_zero]

lemma haversine_symm (lat1 lon1 lat2 lon2 : ℝ) :
    haversine lat1 lon1 lat2 lon2 = haversine lat2 lon2 lat1 lon1 := by
  have h1 : radians (lat1 - lat2) / 2 = -(radians (lat2 - lat1) / 2) := by
    simp only [radians]; ring
  have h2 : radians (lon1 - lon2) / 2 = -(radians (lon2 - lon1) / 2) := by
    simp only [radians]; ring
  have key : Real.sin (radians (lat1 - lat2) / 2) ^ 2 +
      Real.cos (radians lat2) * Real.cos (radians lat1) *
        Real.sin (radians (lon1 - lon2) / 2) ^ 2 =
      Real.sin (radians (lat2 - lat1) / 2) ^ 2 +
      Real.cos (radians lat1) * Real.cos (radians lat2) *
        Real.sin (radians (lon2 - lon1) / 2) ^ 2 := by
    rw [h1, h2, Real.sin_neg, Real.sin_neg]
    ring
  simp only [haversine]
  rw [key]

/-- Along the equator the haversine formula collapses to arc length: for
`0 ≤ d ≤ 180` degrees of longitude the distance is `6371 * d * π / 180`. -/
lemma haversine_equator (d : ℝ) (h0 : 0 ≤ d) (h1 : d ≤ 180) :
    haversine 0 0 0 d = 6371 * (d * Real.pi / 180) := by
  have hπ := Real.pi_pos
  have hdpi : d * Real.pi ≤ 180 * Real.pi :=
    mul_le_mul_of_nonneg_right h1 hπ.le
  have hx0 : 0 ≤ radians d / 2 := by
    simp only [radians]
    positivity
  have hx2 : radians d / 2 ≤ Real.pi / 2 := by
    simp only [radians]
    linarith
  have hsin : 0 ≤ Real.sin (radians d / 2) :=
    Real.sin_nonneg_of_nonneg_of_le_pi hx0 (le_trans hx2 (by linarith))
  have hkey : Real.sqrt (Real.sin (radians d / 2) ^ 2) =
      Real.sin (radians d / 2) := by
    rw [Real.sqrt_sq_eq_abs, abs_of_nonneg hsin]
  have harc : Real.arcsin (Real.sin (radians d / 2)) = radians d / 2 :=
    Real.arcsin_sin (by linarith) hx2
  simp only [haversine, sub_zero, sub_self, radians_zero, zero_div,
    Real.sin_zero, Real.cos_zero, one_mul, zero_add]
  rw [zero_pow (by norm_num), zero_add, hkey, harc]
  simp only [radians]
  ring

/-- C8: the haversine distance of a point to itself is zero, and
`haversine` is symmetric in its two points. -/
theorem haversine_self_symm (a b lat1 lon1 lat2 lon2 : ℝ) :
    haversine a b a b = 0 ∧
    haversine lat1 lon1 lat2 lon2 = haversine lat2 lon2 lat1 lon1 :=
  ⟨haversine_self a b, haversine_symm lat1 lon1 lat2 lon2⟩

/-- C3: the congestion summary counts the snapshots with
`timestamp ≥ now - 600` and maps the count with exact boundaries —
below 50 is LOW, from 50 below 150 is MEDIUM, from 150 on HIGH; at the
boundary counts 49, 50, 149, 150 the levels are LOW, MEDIUM, MEDIUM, HIGH. -/
theorem congestion_summary_thresholds (entries : List SnapshotEntry) (now : ℕ) :
    (summarize entries now).recent =
      (entries.filter (fun e => now - 600 ≤ e.timestamp)).length ∧
    ((summarize entries now).level = .LOW ↔
      (summarize entries now).recent < 50) ∧
    ((summarize entries now).level = .MEDIUM ↔
      50 ≤ (summarize entries now).recent ∧
        (summarize entries now).recent < 150) ∧
    ((summarize entries now).level = .HIGH ↔
      150 ≤ (summarize entries now).recent) ∧
    congestionLevel 49 = .LOW ∧ congestionLevel 50 = .MEDIUM ∧
    congestionLevel 149 = .MEDIUM ∧ congestionLevel 150 = .HIGH := by
  have hlevel : ∀ r : ℕ,
      (congestionLevel r = .LOW ↔ r < 50) ∧
      (congestionLevel r = .MEDIUM ↔ 50 ≤ r ∧ r < 150) ∧
      (congestionLevel r = .HIGH ↔ 150 ≤ r) := by
    intro r
    unfold congestionLevel
    split_ifs with h1 h2 <;> refine ⟨?_, ?_, ?_⟩ <;> simp <;> omega
  exact ⟨rfl, (hlevel _).1, (hlevel _).2.1, (hlevel _).2.2,
    by decide, by decide, by decide, by decide⟩

/-- C5: the weather risk checks its rules in fixed precedence — storm or
thunder in the lowercased condition text, or wind above 15, gives HIGH;
otherwise rain or fog gives MODERATE; otherwise LOW — and on the concrete
inputs of the spec: Thunderstorm at wind 5 is HIGH, light rain at wind 5 is
MODERATE, clear at wind 20 is HIGH, clear at wind 5 is LOW. -/
theorem weather_risk_rule (m : List Char) (w : ℚ) :
    (weatherRisk m w = .HIGH ↔
      occursIn ("storm".toList) (lowerChars m) = true ∨
      occursIn ("thunder".toList) (lowerChars m) = true ∨ 15 < w) ∧
    (weatherRisk m w = .MODERATE ↔
      ¬(occursIn ("storm".toList) (lowerChars m) = true ∨
        occursIn ("thunder".toList) (lowerChars m) = true ∨ 15 < w) ∧
      (occursIn ("rain".toList) (lowerChars m) = true ∨
       occursIn ("fog".toList) (lowerChars m) = true)) ∧
    (weatherRisk m w = .LOW ↔
      ¬(occursIn ("storm".toList) (lowerChars m) = true ∨
        occursIn ("thunder".toList) (lowerChars m) = true ∨ 15 < w) ∧
      ¬(occursIn ("rain".toList) (lowerChars m) = true ∨
        occursIn ("fog".toList) (lowerChars m) = true)) ∧
    weatherRisk ("Thunderstorm".toList) 5 = .HIGH ∧
    weatherRisk ("light rain".toList) 5 = .MODERATE ∧
    weatherRisk ("clear".toList) 20 = .HIGH ∧
    weatherRisk ("clear".toList) 5 = .LOW := by
  refine ⟨?_, ?_, ?_, by decide, by decide, by decide, by decide⟩ <;>
    · simp only [weatherRisk, Bool.or_eq_true, decide_eq_true_eq]
      split_ifs with h1 h2 <;>
        first
          | exact iff_of_true rfl (by tauto)
          | exact iff_of_false (by simp) (by tauto)

/-- C7: a flight dictionary built by the live-flights loop and stored as a
snapshot row keeps icao24, callsign, lat, lon, altitude, velocity and
timestamp unchanged, column for column. -/
theorem snapshot_round_trip (bounds : RegionBounds) (minAlt maxAlt : ℚ)
    (search : List Char) (ts : ℕ) (s : RawStateQ) (f : FlightRecord)
    (_h : processState bounds minAlt maxAlt search ts s = some f) :
    (toSnapshot f).icao24 = f.icao24 ∧ (toSnapshot f).callsign = f.callsign ∧
    (toSnapshot f).lat = f.lat ∧ (toSnapshot f).lon = f.lon ∧
    (toSnapshot f).altitude = f.altitude ∧
    (toSnapshot f).velocity = f.velocity ∧
    (toSnapshot f).timestamp = f.timestamp :=
  ⟨rfl, rfl, rfl, rfl, rfl, rfl, rfl⟩

theorem snapshot_round_trip_witness :
    (toSnapshot ⟨"abc123", "AI101".toList, "India", 20, 80, 1000, 250, 90,
        1700000000⟩).icao24 = "abc123" ∧
    (toSnapshot ⟨"abc123", "AI101".toList, "India", 20, 80, 1000, 250, 90,
        1700000000⟩).callsign = "AI101".toList ∧
    (toSnapshot ⟨"abc123", "AI101".toList, "India", 20, 80, 1000, 250, 90,
        1700000000⟩).lat = 20 ∧
    (toSnapshot ⟨"abc123", "AI101".toList, "India", 20, 80, 1000, 250, 90,
        1700000000⟩).lon = 80 ∧
    (toSnapshot ⟨"abc123", "AI101".toList, "India", 20, 80, 1000, 250, 90,
        1700000000⟩).altitude = 1000 ∧
    (toSnapshot ⟨"abc123", "AI101".toList, "India", 20, 80, 1000, 250, 90,
        1700000000⟩).velocity = 250 ∧
    (toSnapshot ⟨"abc123", "AI101".toList, "India", 20, 80, 1000, 250, 90,
        1700000000⟩).timestamp = 1700000000 :=
  snapshot_round_trip REGION_BOUNDS 0 50000 [] 1700000000
    ⟨"abc123", some ("AI101".toList), "India", some 80, some 20, some 1000,
      some 250, some 90⟩
    ⟨"abc123", "AI101".toList, "India", 20, 80, 1000, 250, 90, 1700000000⟩
    (by decide)

/-- C9: on the weather and traffic endpoints, an unknown airport code gives
NotFound and a missing weather provider gives the distinct Unconfigured
outcome; exactly one of NotFound, Unconfigured and success occurs, NotFound
takes precedence over the provider, and the traffic endpoint classifies
around the coordinates of the found airport. -/
theorem airport_error_paths (airports : List Airport) (code : List Char)
    (provider : Option (ℝ → ℝ → WeatherObs)) (states : List TrafficState) :
    (airportWeather airports code provider = .notFound ↔
      lookupAirport airports code = none) ∧
    (airportWeather airports code provider = .unconfigured ↔
      (∃ ap, lookupAirport airports code = some ap) ∧ provider = none) ∧
    ((∃ c r w t, airportWeather airports code provider = .ok c r w t) ↔
      (∃ ap, lookupAirport airports code = some ap) ∧ provider ≠ none) ∧
    (lookupAirport airports code = none →
      ∀ p1 p2 : Option (ℝ → ℝ → WeatherObs),
        airportWeather airports code p1 = airportWeather airports code p2) ∧
    (airportTraffic airports code states = .notFound ↔
      lookupAirport airports code = none) ∧
    (∀ ap, lookupAirport airports code = some ap →
      airportTraffic airports code states =
        .ok (classifyTraffic ap.lat ap.lon states)) := by
  cases h : lookupAirport airports code with
  | none =>
    cases provider <;>
      simp [airportWeather, airportTraffic, h]
  | some ap =>
    cases provider <;>
      simp [airportWeather, airportTraffic, h]

theorem airport_error_paths_witness :
    airportWeather
        [⟨"BOM".toList, "CSMI".toList, "Mumbai".toList, "India".toList,
          19, 72⟩] ("xxx".toList) none =
      airportWeather
        [⟨"BOM".toList, "CSMI".toList, "Mumbai".toList, "India".toList,
          19, 72⟩] ("xxx".toList)
        (some (fun _ _ => ⟨"clear".toList, "clear sky".toList, 3, 30⟩)) ∧
    airportTraffic
        [⟨"BOM".toList, "CSMI".toList, "Mumbai".toList, "India".toList,
          19, 72⟩] ("xxx".toList) [] = .notFound := by
  have h := airport_error_paths
    [⟨"BOM".toList, "CSMI".toList, "Mumbai".toList, "India".toList, 19, 72⟩]
    ("xxx".toList) none ([] : List TrafficState)
  exact ⟨h.2.2.2.1 rfl none
      (some (fun _ _ => ⟨"clear".toList, "clear sky".toList, 3, 30⟩)),
    h.2.2.2.2.1.mpr rfl⟩

/-- C2 is false as stated: with raw search text "klm" and a record whose
trimmed callsign is the lowercase "klm123", that callsign contains
the search text ignoring case and every other predicate holds, yet the
live-flights loop drops the record, because the code uppercases only the
query and compares it with the callsign as stored. -/
theorem callsign_filter_case_sensitivity_cex :
    occursIn (lowerChars ("klm".toList))
      (lowerChars (stripChars ("klm123".toList))) = true ∧
    (REGION_BOUNDS.min_lat ≤ (20 : ℚ) ∧ (20 : ℚ) ≤ REGION_BOUNDS.max_lat ∧
      REGION_BOUNDS.min_lon ≤ (80 : ℚ) ∧ (80 : ℚ) ≤ REGION_BOUNDS.max_lon) ∧
    ((0 : ℚ) ≤ 1000 ∧ (1000 : ℚ) ≤ 50000) ∧
    liveFlights REGION_BOUNDS 0 50000 ("klm".toList) 1700000000
      [⟨"abc123", some ("klm123".toList), "India", some 80, some 20,
        some 1000, some 0, some 0⟩] = [] := by
  refine ⟨by decide, by decide, by decide, ?_⟩
  decide

/-- C2 (amended): the callsign filter is case-insensitive only in the query:
the raw search text is stripped and uppercased, and a record whose other
predicates hold is retained precisely when the search is empty or the
trimmed callsign of the record contains the uppercased search verbatim. -/
theorem callsign_filter_uppercase_query (bounds : RegionBounds)
    (minAlt maxAlt : ℚ) (callsignRaw : List Char) (ts : ℕ) (s : RawStateQ)
    (lat lon : ℚ) (hlat : s.lat = some lat) (hlon : s.lon = some lon)
    (hb : bounds.min_lat ≤ lat ∧ lat ≤ bounds.max_lat ∧
          bounds.min_lon ≤ lon ∧ lon ≤ bounds.max_lon)
    (ha : minAlt ≤ s.altitude.getD 0 ∧ s.altitude.getD 0 ≤ maxAlt) :
    (∃ f, processState bounds minAlt maxAlt
        (upperChars (stripChars callsignRaw)) ts s = some f) ↔
      (upperChars (stripChars callsignRaw) = [] ∨
        occursIn (upperChars (stripChars callsignRaw))
          (stripChars (s.callsign.getD [])) = true) := by
  simp only [processState, hlat, hlon]
  rw [if_neg (not_not_intro hb), if_neg (not_not_intro ha)]
  by_cases hc : upperChars (stripChars callsignRaw) ≠ [] ∧
      occursIn (upperChars (stripChars callsignRaw))
        (stripChars (s.callsign.getD [])) = false
  · rw [if_pos hc]
    simp only [reduceCtorEq, exists_false, false_iff, not_or]
    exact ⟨hc.1, by simp [hc.2]⟩
  · rw [if_neg hc]
    simp only [Option.some.injEq, exists_eq', true_iff]
    rcases not_and_or.mp hc with h | h
    · exact Or.inl (not_not.mp h)
    · exact Or.inr (by simpa using h)

theorem callsign_filter_uppercase_query_witness :
    (∃ f, processState REGION_BOUNDS 0 50000
        (upperChars (stripChars ("ai".toList))) 1700000000
        ⟨"abc123", some ("AI101".toList), "India", some 80, some 20,
          some 1000, some 250, some 90⟩ = some f) ↔
      (upperChars (stripChars ("ai".toList)) = [] ∨
        occursIn (upperChars (stripChars ("ai".toList)))
          (stripChars ("AI101".toList)) = true) :=
  callsign_filter_uppercase_query REGION_BOUNDS 0 50000 ("ai".toList)
    1700000000
    ⟨"abc123", some ("AI101".toList), "India", some 80, some 20, some 1000,
      some 250, some 90⟩
    20 80 rfl rfl (by decide) (by decide)

/-- The fused loop body equals field extraction followed by the record-level
predicate. -/
lemma processState_eq_filter (bounds : RegionBounds) (minAlt maxAlt : ℚ)
    (search : List Char) (ts : ℕ) (s : RawStateQ) :
    processState bounds minAlt maxAlt search ts s =
      Option.filter (passes bounds minAlt maxAlt search) (parseRecord ts s) := by
  rcases hlat : s.lat with _ | lat <;> rcases hlon : s.lon with _ | lon <;>
    simp only [processState, parseRecord, hlat, hlon, Option.filter]
  by_cases hA : bounds.min_lat ≤ lat ∧ lat ≤ bounds.max_lat ∧
      bounds.min_lon ≤ lon ∧ lon ≤ bounds.max_lon
  · by_cases hB : minAlt ≤ s.altitude.getD 0 ∧ s.altitude.getD 0 ≤ maxAlt
    · rw [if_neg (not_not_intro hA), if_neg (not_not_intro hB)]
      by_cases hC : search ≠ [] ∧
          occursIn search (stripChars (s.callsign.getD [])) = false
      · rw [if_pos hC]
        simp [passes, hA, hB, hC.1, hC.2]
      · rw [if_neg hC]
        rcases not_and_or.mp hC with h | h
        · simp [passes, hA, hB, not_not.mp h]
        · simp only [Bool.not_eq_false] at h
          simp [passes, hA, hB, h]
    · rw [if_neg (not_not_intro hA), if_pos hB]
      simp [passes, hB]
  · rw [if_pos hA]
    simp [passes, hA]

/-- The live-flights loop is the record-level RegionFilter applied to the
parsed input. -/
lemma liveFlights_eq_regionFilter (bounds : RegionBounds) (minAlt maxAlt : ℚ)
    (callsignRaw : List Char) (ts : ℕ) (states : List RawStateQ) :
    liveFlights bounds minAlt maxAlt callsignRaw ts states =
      regionFilter bounds minAlt maxAlt (upperChars (stripChars callsignRaw))
        (states.filterMap (parseRecord ts)) := by
  simp only [liveFlights, regionFilter]
  induction states with
  | nil => rfl
  | cons s rest ih =>
    simp only [List.filterMap_cons]
    rw [processState_eq_filter]
    cases hp : parseRecord ts s with
    | none => simpa [Option.filter] using ih
    | some f =>
      cases hpass : passes bounds minAlt maxAlt
          (upperChars (stripChars callsignRaw)) f <;>
        simp [Option.filter, hpass, List.filter_cons, ih]

/-- C4: the output of the RegionFilter is a subsequence of its input, every
retained record satisfies the inclusive bounds and altitude predicates, and
the live-flights loop is exactly this filter applied to the parsed states. -/
theorem region_filter_sound (bounds : RegionBounds) (minAlt maxAlt : ℚ)
    (search callsignRaw : List Char) (ts : ℕ) (states : List RawStateQ)
    (records : List FlightRecord) :
    List.Sublist (regionFilter bounds minAlt maxAlt search records) records ∧
    (∀ f ∈ regionFilter bounds minAlt maxAlt search records,
      (bounds.min_lat ≤ f.lat ∧ f.lat ≤ bounds.max_lat ∧
       bounds.min_lon ≤ f.lon ∧ f.lon ≤ bounds.max_lon) ∧
      minAlt ≤ f.altitude ∧ f.altitude ≤ maxAlt) ∧
    liveFlights bounds minAlt maxAlt callsignRaw ts states =
      regionFilter bounds minAlt maxAlt (upperChars (stripChars callsignRaw))
        (states.filterMap (parseRecord ts)) := by
  refine ⟨List.filter_sublist _, ?_,
    liveFlights_eq_regionFilter bounds minAlt maxAlt callsignRaw ts states⟩
  intro f hf
  have hp := (List.mem_filter.mp hf).2
  simp only [passes, Bool.and_eq_true, decide_eq_true_eq] at hp
  exact ⟨hp.1.1, hp.1.2⟩

theorem region_filter_sound_witness :
    List.Sublist
      (regionFilter REGION_BOUNDS 0 50000 []
        [⟨"abc123", "AI101".toList, "India", 20, 80, 1000, 250, 90, 0⟩])
      [⟨"abc123", "AI101".toList, "India", 20, 80, 1000, 250, 90, 0⟩] ∧
    ((REGION_BOUNDS.min_lat ≤ (20 : ℚ) ∧ (20 : ℚ) ≤ REGION_BOUNDS.max_lat ∧
      REGION_BOUNDS.min_lon ≤ (80 : ℚ) ∧ (80 : ℚ) ≤ REGION_BOUNDS.max_lon) ∧
      (0 : ℚ) ≤ 1000 ∧ (1000 : ℚ) ≤ 50000) := by
  have h := region_filter_sound REGION_BOUNDS 0 50000 [] [] 0 []
    [⟨"abc123", "AI101".toList, "India", 20, 80, 1000, 250, 90, 0⟩]
  exact ⟨h.1,
    h.2.1 ⟨"abc123", "AI101".toList, "India", 20, 80, 1000, 250, 90, 0⟩
      (by decide)⟩

/-- C1: the traffic classifier drops a record with known coordinates when
its distance to the airport exceeds 100 km; among retained records, distance
above 30 km with heading neither 0 nor 360 goes to arrivals, distance below
30 km goes to departures, and every remaining retained record — distance
exactly 30 km with any heading, or distance above 30 km with heading 0 or
360 — goes to others, each bucket keeping input order. -/
theorem airport_traffic_classification_rule (lat0 lon0 : ℝ) (s : TrafficState)
    (rest : List TrafficState) (lat lon : ℝ)
    (hlat : s.lat = some lat) (hlon : s.lon = some lon) :
    (100 < haversine lat0 lon0 lat lon →
      classifyTraffic lat0 lon0 (s :: rest) = classifyTraffic lat0 lon0 rest) ∧
    (haversine lat0 lon0 lat lon ≤ 100 → 30 < haversine lat0 lon0 lat lon →
      s.heading.getD 0 ≠ 0 → s.heading.getD 0 ≠ 360 →
      classifyTraffic lat0 lon0 (s :: rest) =
        ⟨⟨stripChars (s.callsign.getD []), lat, lon, s.heading.getD 0,
            round1 (haversine lat0 lon0 lat lon)⟩ ::
              (classifyTraffic lat0 lon0 rest).arrivals,
          (classifyTraffic lat0 lon0 rest).departures,
          (classifyTraffic lat0 lon0 rest).others⟩) ∧
    (haversine lat0 lon0 lat lon < 30 →
      classifyTraffic lat0 lon0 (s :: rest) =
        ⟨(classifyTraffic lat0 lon0 rest).arrivals,
          ⟨stripChars (s.callsign.getD []), lat, lon, s.heading.getD 0,
            round1 (haversine lat0 lon0 lat lon)⟩ ::
              (classifyTraffic lat0 lon0 rest).departures,
          (classifyTraffic lat0 lon0 rest).others⟩) ∧
    (haversine lat0 lon0 lat lon ≤ 100 →
      ¬(30 < haversine lat0 lon0 lat lon ∧ s.heading.getD 0 ≠ 0 ∧
          s.heading.getD 0 ≠ 360) →
      ¬(haversine lat0 lon0 lat lon < 30) →
      classifyTraffic lat0 lon0 (s :: rest) =
        ⟨(classifyTraffic lat0 lon0 rest).arrivals,
          (classifyTraffic lat0 lon0 rest).departures,
          ⟨stripChars (s.callsign.getD []), lat, lon, s.heading.getD 0,
            round1 (haversine lat0 lon0 lat lon)⟩ ::
              (classifyTraffic lat0 lon0 rest).others⟩) := by
  refine ⟨?_, ?_, ?_, ?_⟩
  · intro h1
    simp only [classifyTraffic, hlat, hlon]
    rw [if_neg (not_le.mpr h1)]
  · intro h1 h2 h3 h4
    simp only [classifyTraffic, hlat, hlon]
    rw [if_pos h1, if_pos ⟨h2, h3, h4⟩]
  · intro h1
    simp only [classifyTraffic, hlat, hlon]
    rw [if_pos (by linarith), if_neg (by rintro ⟨h30, -, -⟩; linarith),
      if_pos h1]
  · intro h1 h2 h3
    simp only [classifyTraffic, hlat, hlon]
    rw [if_pos h1, if_neg h2, if_neg h3]

theorem airport_traffic_classification_rule_witness :
    classifyTraffic 0 0
        [⟨some ("AI101".toList), some (1 / 2 : ℝ), some 0, some 90⟩] =
      ⟨⟨"AI101".toList, 0, 1 / 2, 90, round1 (haversine 0 0 0 (1 / 2))⟩ ::
          (classifyTraffic 0 0 []).arrivals,
        (classifyTraffic 0 0 []).departures,
        (classifyTraffic 0 0 []).others⟩ ∧
    classifyTraffic 0 0
        [⟨some ("AI102".toList), some (1 : ℝ), some 0, some 90⟩] =
      classifyTraffic 0 0 [] := by
  have heqh := haversine_equator (1 / 2) (by norm_num) (by norm_num)
  have heq1 := haversine_equator 1 (by norm_num) (by norm_num)
  have h30 : 30 < haversine 0 0 0 (1 / 2) := by
    rw [heqh]; linarith [Real.pi_gt_three]
  have h100 : haversine 0 0 0 (1 / 2) ≤ 100 := by
    rw [heqh]; linarith [Real.pi_lt_d2]
  have hgt : 100 < haversine 0 0 0 1 := by
    rw [heq1]; linarith [Real.pi_gt_three]
  constructor
  · exact (airport_traffic_classification_rule 0 0
        ⟨some ("AI101".toList), some (1 / 2 : ℝ), some 0, some 90⟩ []
        0 (1 / 2) rfl rfl).2.1 h100 h30
      (by norm_num) (by norm_num)
  · exact (airport_traffic_classification_rule 0 0
        ⟨some ("AI102".toList), some (1 : ℝ), some 0, some 90⟩ []
        0 1 rfl rfl).1 hgt

/-- C10: a record whose heading field is null gets heading 0 and therefore
never lands in arrivals; within the 100 km radius it goes to departures when
its distance is below 30 km, and to others otherwise. -/
theorem null_heading_never_arrival (lat0 lon0 : ℝ) (s : TrafficState)
    (rest : List TrafficState) (lat lon : ℝ)
    (hlat : s.lat = some lat) (hlon : s.lon = some lon)
    (hhd : s.heading = none) :
    (classifyTraffic lat0 lon0 (s :: rest)).arrivals =
      (classifyTraffic lat0 lon0 rest).arrivals ∧
    (haversine lat0 lon0 lat lon < 30 →
      classifyTraffic lat0 lon0 (s :: rest) =
        ⟨(classifyTraffic lat0 lon0 rest).arrivals,
          ⟨stripChars (s.callsign.getD []), lat, lon, 0,
            round1 (haversine lat0 lon0 lat lon)⟩ ::
              (classifyTraffic lat0 lon0 rest).departures,
          (classifyTraffic lat0 lon0 rest).others⟩) ∧
    (haversine lat0 lon0 lat lon ≤ 100 →
      ¬(haversine lat0 lon0 lat lon < 30) →
      classifyTraffic lat0 lon0 (s :: rest) =
        ⟨(classifyTraffic lat0 lon0 rest).arrivals,
          (classifyTraffic lat0 lon0 rest).departures,
          ⟨stripChars (s.callsign.getD []), lat, lon, 0,
            round1 (haversine lat0 lon0 lat lon)⟩ ::
              (classifyTraffic lat0 lon0 rest).others⟩) := by
  have hno : ¬(30 < haversine lat0 lon0 lat lon ∧
      (Option.getD (s.heading) 0 : ℝ) ≠ 0 ∧
      (Option.getD (s.heading) 0 : ℝ) ≠ 360) := by
    rw [hhd]
    rintro ⟨-, h0, -⟩
    exact h0 rfl
  refine ⟨?_, ?_, ?_⟩
  · simp only [classifyTraffic, hlat, hlon]
    by_cases hd100 : haversine lat0 lon0 lat lon ≤ 100
    · rw [if_pos hd100, if_neg hno]
      by_cases hd30 : haversine lat0 lon0 lat lon < 30
      · rw [if_pos hd30]
      · rw [if_neg hd30]
    · rw [if_neg hd100]
  · intro h1
    simp only [classifyTraffic, hlat, hlon]
    rw [if_pos (by linarith), if_neg hno, if_pos h1, hhd]
    rfl
  · intro h1 h2
    simp only [classifyTraffic, hlat, hlon]
    rw [if_pos h1, if_neg hno, if_neg h2, hhd]
    rfl

theorem null_heading_never_arrival_witness :
    classifyTraffic 19 72 [⟨some ("AI103".toList), some 72, some 19, none⟩] =
      ⟨(classifyTraffic 19 72 []).arrivals,
        ⟨"AI103".toList, 19, 72, 0, round1 (haversine 19 72 19 72)⟩ ::
          (classifyTraffic 19 72 []).departures,
        (classifyTraffic 19 72 []).others⟩ :=
  (null_heading_never_arrival 19 72
      ⟨some ("AI103".toList), some 72, some 19, none⟩ [] 19 72
      rfl rfl rfl).2.1
    (by rw [haversine_self]; norm_num)

/-! Helper lemmas for the hourly bucket query. -/

instance : IsTotal ℕ (fun a b => b ≤ a) := ⟨fun a b => le_total b a⟩

instance : IsTrans ℕ (fun a b => b ≤ a) := ⟨fun _ _ _ h1 h2 => le_trans h2 h1⟩

lemma hourlyBuckets_eq (entries : List SnapshotEntry) (limit : ℕ) :
    hourlyBuckets entries limit =
      ((List.insertionSort (fun a b => b ≤ a)
          ((entries.map (fun e => e.timestamp / 3600)).dedup)).map
        (fun h => (h, entries.countP (fun e => e.timestamp / 3600 == h)))).take
        limit := rfl

lemma hourlyBuckets_map_fst (entries : List SnapshotEntry) (limit : ℕ) :
    (hourlyBuckets entries limit).map Prod.fst =
      (List.insertionSort (fun a b => b ≤ a)
        ((entries.map (fun e => e.timestamp / 3600)).dedup)).take limit := by
  have hcomp : (Prod.fst ∘ fun h : ℕ =>
      (h, entries.countP (fun e => e.timestamp / 3600 == h))) = id := rfl
  rw [hourlyBuckets_eq, List.map_take, List.map_map, hcomp, List.map_id]

/-- In a strictly descending list, any listed value above a member of the
prefix of length `n` is itself in that prefix. -/
lemma mem_take_of_sorted_gt {l : List ℕ} (hs : l.Pairwise (fun a b => b < a))
    {n a b : ℕ} (ha : a ∈ l.take n) (hb : b ∈ l) (hab : a < b) :
    b ∈ l.take n := by
  rw [← List.take_append_drop n l] at hb hs
  rcases List.mem_append.mp hb with h | h
  · exact h
  · have := (List.pairwise_append.mp hs).2.2 a ha b h
    omega

/-- C6: `hourlyBuckets` yields, per non-empty hour bucket, the pair of the
bucket value `timestamp / 3600` and the number of stored entries in it;
the pairs are strictly descending in the bucket value, exactly
`min limit (number of distinct buckets)` pairs are produced, any bucket more
recent than a produced one is also produced (the kept buckets are the
most recent), and the congestion summary uses limit 24. -/
theorem hourly_buckets_spec (entries : List SnapshotEntry) (limit now : ℕ) :
    (∀ p ∈ hourlyBuckets entries limit,
      p.2 = (entries.filter (fun e => e.timestamp / 3600 == p.1)).length ∧
      0 < p.2) ∧
    ((hourlyBuckets entries limit).map Prod.fst).Pairwise (fun a b => b < a) ∧
    (hourlyBuckets entries limit).length =
      min limit ((entries.map (fun e => e.timestamp / 3600)).dedup).length ∧
    (∀ p ∈ hourlyBuckets entries limit, ∀ e ∈ entries,
      p.1 < e.timestamp / 3600 →
      ∃ c, (e.timestamp / 3600, c) ∈ hourlyBuckets entries limit) ∧
    (summarize entries now).hourly = hourlyBuckets entries 24 := by
  have hperm := List.perm_insertionSort (fun a b => b ≤ a)
    ((entries.map (fun e => e.timestamp / 3600)).dedup)
  have hsorted : (List.insertionSort (fun a b => b ≤ a)
      ((entries.map (fun e => e.timestamp / 3600)).dedup)).Pairwise
        (fun a b => b ≤ a) := by
    have hs := List.sorted_insertionSort (fun a b : ℕ => b ≤ a)
      ((entries.map (fun e : SnapshotEntry => e.timestamp / 3600)).dedup)
    exact hs
  have hnodup : (List.insertionSort (fun a b => b ≤ a)
      ((entries.map (fun e => e.timestamp / 3600)).dedup)).Nodup :=
    hperm.nodup_iff.mpr (List.nodup_dedup _)
  have hstrict : (List.insertionSort (fun a b => b ≤ a)
      ((entries.map (fun e => e.timestamp / 3600)).dedup)).Pairwise
        (fun a b => b < a) :=
    (hsorted.and hnodup).imp
      (fun h => lt_of_le_of_ne h.1 (fun hba => h.2 hba.symm))
  refine ⟨?_, ?_, ?_, ?_, rfl⟩
  · intro p hp
    have hp' := List.mem_of_mem_take (hourlyBuckets_eq entries limit ▸ hp)
    obtain ⟨h, hh, rfl⟩ := List.mem_map.mp hp'
    refine ⟨List.countP_eq_length_filter _ _, ?_⟩
    have hmem : h ∈ (entries.map (fun e => e.timestamp / 3600)).dedup :=
      hperm.mem_iff.mp hh
    obtain ⟨e, he, rfl⟩ := List.mem_map.mp (List.mem_dedup.mp hmem)
    exact List.countP_pos_iff.mpr ⟨e, he, beq_iff_eq.mpr rfl⟩
  · rw [hourlyBuckets_map_fst]
    exact hstrict.sublist (List.take_sublist _ _)
  · rw [hourlyBuckets_eq, List.length_take, List.length_map, hperm.length_eq]
  · intro p hp e he hlt
    have h1 : p.1 ∈ (hourlyBuckets entries limit).map Prod.fst :=
      List.mem_map_of_mem _ hp
    rw [hourlyBuckets_map_fst] at h1
    have h2 : e.timestamp / 3600 ∈ List.insertionSort (fun a b => b ≤ a)
        ((entries.map (fun e => e.timestamp / 3600)).dedup) :=
      hperm.mem_iff.mpr (List.mem_dedup.mpr (List.mem_map.mpr ⟨e, he, rfl⟩))
    have h3 := mem_take_of_sorted_gt hstrict h1 h2 hlt
    exact ⟨entries.countP (fun x => x.timestamp / 3600 == e.timestamp / 3600),
      by
        rw [hourlyBuckets_eq, ← List.map_take]
        exact List.mem_map_of_mem _ h3⟩

theorem hourly_buckets_spec_witness :
    (2 : ℕ) =
      (List.filter (fun e => e.timestamp / 3600 == 1)
        [(⟨"a", [], 0, 0, 0, 0, 3600⟩ : SnapshotEntry),
         ⟨"b", [], 0, 0, 0, 0, 3700⟩, ⟨"c", [], 0, 0, 0, 0, 7200⟩]).length ∧
    (0 : ℕ) < 2 :=
  (hourly_buckets_spec
      [⟨"a", [], 0, 0, 0, 0, 3600⟩, ⟨"b", [], 0, 0, 0, 0, 3700⟩,
       ⟨"c", [], 0, 0, 0, 0, 7200⟩] 24 0).1
    (1, 2) (by decide)
